import Mathlib

/-!
# amp-agent: creating and removing services on the Docker engine

A shallow embedding of `api/rpc/service/service.go` (package `service`).

* Go pointers, slices, maps and the `error` interface are modelled in namespace `Go`;
  `nil` is `none` throughout, and a nil dereference is a `Go.Panic`.
* The Docker engine is an external collaborator.  Its client is a record of two
  behaviours, each a function of the history of events so far, so that a theorem
  quantified over `client.Client` holds for every engine behaviour.
* The world is the chronological list of observable events: calls made on the engine
  client and lines printed with `fmt.Printf`.
* `context.Context` is forwarded untouched to the engine and is left out.
* Go maps are references.  The one store of the program (source line 126) goes to
  the map object held in `Labels`, so it shows through every reference to that object.
  Contents are kept by value in each field, and the store is passed on explicitly to
  the fields that hold the written object: the caller's `Labels`, and, when the caller
  passed one map object as both `Labels` and `ContainerLabels`, the caller's
  `ContainerLabels` and the outgoing `ContainerSpec.Labels` as well.  That sharing is
  recorded in the request by `ContainerLabelsIsLabels`.
* Unsigned machine integers (`uint32` ports, `uint64` replica counts) are `Nat`;
  the code copies them and performs no arithmetic on them.
-/

set_option autoImplicit false

/-! ## Go run-time values -/

namespace Go

/-- A run-time panic of the Go program. -/
inductive Panic where
  /-- Invalid memory address or nil pointer dereference. -/
  | nilDereference
  /-- Index out of range on a slice store. -/
  | indexOutOfRange
  deriving DecidableEq, Repr

/-- A Go pointer; `none` is `nil`. -/
abbrev Ptr (α : Type) := Option α

/-- A Go slice; `none` is the nil slice, `some []` an empty slice that is not nil. -/
abbrev Slice (α : Type) := Option (List α)

/-- Evaluating `p.f` (or `&p.f`) through a pointer `p`. -/
def deref {α : Type} : Ptr α → Except Panic α
  | none => Except.error Panic.nilDereference
  | some a => Except.ok a

/-- The indexed store `xs[i] = v` on a slice. -/
def setIndex {α : Type} (xs : List α) (i : Nat) (v : α) : Except Panic (List α) :=
  if i < xs.length then Except.ok (xs.set i v) else Except.error Panic.indexOutOfRange

/-- A value of the `error` interface that is not nil. -/
structure error where
  msg : String
  deriving DecidableEq, Repr

/-- A Go `map[string]string` that is not nil, as an association list read through
`Map.lookup`.  The nil map is `none : Option Map`. -/
structure Map where
  entries : List (String × String)
  deriving DecidableEq, Repr

/-- The result of `make(map[string]string)`. -/
def Map.empty : Map := ⟨[]⟩

/-- The read `m[key]` with its presence flag: the first binding of `key`. -/
def Map.lookup (m : Map) (key : String) : Option String :=
  match m.entries.find? (fun kv => kv.1 = key) with
  | none => none
  | some kv => some kv.2

/-- The store `m[key] = val`: any earlier binding of `key` is replaced. -/
def Map.store (m : Map) (key val : String) : Map :=
  ⟨(key, val) :: m.entries.filter (fun kv => kv.1 ≠ key)⟩

/-- The read `m[key]` on a map that may be nil: a nil map binds no key. -/
def Map.read (m : Option Map) (key : String) : Option String :=
  match m with
  | none => none
  | some m => m.lookup key

end Go

/-! ## Docker engine API types (`github.com/docker/docker/api/types/swarm`) -/

namespace swarm

/-- Modelled from the spec: `swarm.PortConfigProtocol` is a named string type of the
vendored Docker API, whose declaration is not among the sources. -/
abbrev PortConfigProtocol := String

/-- Modelled from the spec: `swarm.ResolutionMode` is a named string type of the
vendored Docker API, whose declaration is not among the sources. -/
abbrev ResolutionMode := String

/-- Modelled from the spec: the constant `swarm.ResolutionModeVIP` of the vendored
Docker API (virtual-IP resolution), whose declaration is not among the sources. -/
def ResolutionModeVIP : ResolutionMode := "vip"

/-- Modelled from the spec: `mount.Mount`, used by the source only as the element
type of a nil slice. -/
structure Mount where
  deriving DecidableEq, Repr

/-- Modelled from the spec: `swarm.ResourceRequirements`, used only as the target
type of a nil pointer. -/
structure ResourceRequirements where
  deriving DecidableEq, Repr

/-- Modelled from the spec: `swarm.RestartPolicy`, used only as the target type of a
nil pointer. -/
structure RestartPolicy where
  deriving DecidableEq, Repr

/-- Modelled from the spec: `swarm.Driver`, used only as the target type of a nil
pointer. -/
structure Driver where
  deriving DecidableEq, Repr

/-- The fields of `swarm.Annotations` that the source names. -/
structure Annotations where
  Name : String
  Labels : Option Go.Map
  deriving DecidableEq, Repr

/-- The fields of `swarm.ContainerSpec` that the source names. -/
structure ContainerSpec where
  Image : String
  Args : Go.Slice String
  Env : Go.Slice String
  Labels : Option Go.Map
  Dir : String
  User : String
  Groups : Go.Slice String
  Mounts : Go.Slice Mount
  StopGracePeriod : Go.Ptr Int
  deriving DecidableEq, Repr

/-- One `swarm.NetworkAttachmentConfig`. -/
structure NetworkAttachmentConfig where
  Target : String
  Aliases : Go.Slice String
  deriving DecidableEq, Repr

/-- The `swarm.Placement` record. -/
structure Placement where
  Constraints : Go.Slice String
  deriving DecidableEq, Repr

/-- The fields of `swarm.TaskSpec` that the source names. -/
structure TaskSpec where
  ContainerSpec : ContainerSpec
  Networks : Go.Slice NetworkAttachmentConfig
  Resources : Go.Ptr ResourceRequirements
  RestartPolicy : Go.Ptr RestartPolicy
  Placement : Go.Ptr Placement
  LogDriver : Go.Ptr Driver
  deriving DecidableEq, Repr

/-- The `swarm.UpdateConfig` record. -/
structure UpdateConfig where
  Parallelism : Nat
  Delay : Int
  FailureAction : String
  deriving DecidableEq, Repr

/-- One `swarm.PortConfig`. -/
structure PortConfig where
  Name : String
  Protocol : PortConfigProtocol
  TargetPort : Nat
  PublishedPort : Nat
  deriving DecidableEq, Repr

/-- The `swarm.EndpointSpec` record. -/
structure EndpointSpec where
  Mode : ResolutionMode
  Ports : Go.Slice PortConfig
  deriving DecidableEq, Repr

/-- The `swarm.ReplicatedService` record; `Replicas` is a `*uint64`. -/
structure ReplicatedService where
  Replicas : Go.Ptr Nat
  deriving DecidableEq, Repr

/-- The `swarm.GlobalService` record, which has no fields. -/
structure GlobalService where
  deriving DecidableEq, Repr

/-- The `swarm.ServiceMode` record: two pointers, each possibly nil. -/
structure ServiceMode where
  Replicated : Go.Ptr ReplicatedService
  Global : Go.Ptr GlobalService
  deriving DecidableEq, Repr

/-- The `swarm.ServiceSpec` record as the source fills it in.  `Annotations` is an
embedded struct in Go, so `service.Annotations.Labels` is the same path here. -/
structure ServiceSpec where
  Annotations : Annotations
  TaskTemplate : TaskSpec
  Networks : Go.Slice NetworkAttachmentConfig
  UpdateConfig : Go.Ptr UpdateConfig
  EndpointSpec : Go.Ptr EndpointSpec
  Mode : ServiceMode
  deriving DecidableEq, Repr

end swarm

/-! ## Docker engine API types (`github.com/docker/docker/api/types`) -/

namespace types

/-- Modelled from the spec: `types.ServiceCreateOptions`, of which the source only
builds the zero value. -/
structure ServiceCreateOptions where
  deriving DecidableEq, Repr

/-- The field of `types.ServiceCreateResponse` that the source reads. -/
structure ServiceCreateResponse where
  ID : String
  deriving DecidableEq, Repr

end types

/-! ## The observable world and the engine client -/

/-- One observable event. -/
inductive Event where
  /-- A call `docker.ServiceCreate(ctx, service, options)`. -/
  | ServiceCreate (service : swarm.ServiceSpec) (options : types.ServiceCreateOptions)
  /-- A call `docker.ServiceRemove(ctx, ID)`. -/
  | ServiceRemove (ID : String)
  /-- A line written by `fmt.Printf`. -/
  | Printf (line : String)
  deriving DecidableEq, Repr

/-- The world: every event so far, oldest first. -/
abbrev World := List Event

/-- Number of `ServiceCreate` calls recorded in a world. -/
def World.createCalls : World → Nat
  | [] => 0
  | Event.ServiceCreate _ _ :: w => World.createCalls w + 1
  | _ :: w => World.createCalls w

/-- Number of `ServiceRemove` calls recorded in a world. -/
def World.removeCalls : World → Nat
  | [] => 0
  | Event.ServiceRemove _ :: w => World.removeCalls w + 1
  | _ :: w => World.removeCalls w

namespace client

/-- The two capabilities of `*client.Client` that the source uses.  Each answer may
depend on everything that happened before the call. -/
structure Client where
  ServiceCreate : World → swarm.ServiceSpec → types.ServiceCreateOptions →
    types.ServiceCreateResponse × Option Go.error
  ServiceRemove : World → String → Option Go.error

end client

/-! ## Package `service`: request and response messages -/

namespace service

/-- Modelled from the spec: the generated message `ReplicatedService` (the payload of
the Replicated mode, carrying the replica count); the generated file is not among the
sources. -/
structure ReplicatedService where
  Replicas : Nat
  deriving DecidableEq, Repr

/-- Modelled from the spec: the generated message `GlobalService` (the payload of the
Global mode, without parameters); the generated file is not among the sources. -/
structure GlobalService where
  deriving DecidableEq, Repr

/-- Modelled from the spec: the generated wrapper `ServiceSpec_Replicated`, whose
field `Replicated` points to the payload (source line 70 reads
`mode.Replicated.Replicas`). -/
structure ServiceSpec_Replicated where
  Replicated : Go.Ptr ReplicatedService
  deriving DecidableEq, Repr

/-- Modelled from the spec: the generated wrapper `ServiceSpec_Global`. -/
structure ServiceSpec_Global where
  Global : Go.Ptr GlobalService
  deriving DecidableEq, Repr

/-- The dynamic value of the interface `isServiceSpec_Mode` (exported as `SwarmMode`)
when it is not nil: a pointer to one of the two wrappers, as in the type switch of
source lines 66-77.  The unset mode is the nil interface,
`none : Option isServiceSpec_Mode`. -/
inductive isServiceSpec_Mode where
  | Replicated (mode : Go.Ptr ServiceSpec_Replicated)
  | Global (mode : Go.Ptr ServiceSpec_Global)
  deriving DecidableEq, Repr

/-- Modelled from the spec: the generated message `PublishSpec` (the port publish
specification), with the four fields the source reads. -/
structure PublishSpec where
  Name : String
  Protocol : String
  PublishPort : Nat
  InternalPort : Nat
  deriving DecidableEq, Repr

/-- Modelled from the spec: the generated message `ServiceSpec` (the service
description), with the fields the source reads.  Repeated messages are slices of
pointers.

`ContainerLabelsIsLabels` is not a field of the message.  It records the one fact
about object identity that the program can observe: whether `ContainerLabels` holds
the very same map object as `Labels` (their contents then agree).  It is false in
every message decoded from the wire; a caller of the exported `Create` can make it
true by assigning one map to both fields. -/
structure ServiceSpec where
  Image : String
  Name : String
  Mode : Option isServiceSpec_Mode
  Env : Go.Slice String
  Labels : Option Go.Map
  ContainerLabels : Option Go.Map
  PublishSpecs : Go.Slice (Go.Ptr PublishSpec)
  ContainerLabelsIsLabels : Bool := false
  deriving DecidableEq, Repr

/-- Modelled from the spec: the generated message `ServiceCreateRequest`. -/
structure ServiceCreateRequest where
  ServiceSpec : Go.Ptr ServiceSpec
  deriving DecidableEq, Repr

/-- Modelled from the spec: the generated message `ServiceCreateResponse`. -/
structure ServiceCreateResponse where
  Id : String
  deriving DecidableEq, Repr

/-- Modelled from the spec: the generated message `RemoveRequest`. -/
structure RemoveRequest where
  Ident : String
  deriving DecidableEq, Repr

/-- Modelled from the spec: the generated message `RemoveResponse`. -/
structure RemoveResponse where
  Ident : String
  deriving DecidableEq, Repr

/-! ## Package `service`: constants -/

/-- Source line 18. -/
def defaultNetwork : String := "amp-public"

/-- Source line 23. -/
def serviceRoleLabelName : String := "io.amp.role"

/-! ## Package `service`: `Create` -/

/-- Source lines 65-77: the type switch on `serv.Mode`.  The switch has no default
branch, so the nil interface leaves `serviceMode` at its zero value. -/
def Create.serviceMode : Option isServiceSpec_Mode → Except Go.Panic swarm.ServiceMode
  | some (isServiceSpec_Mode.Replicated mode) => do
      let wrapper ← Go.deref mode
      let payload ← Go.deref wrapper.Replicated
      pure { Replicated := some { Replicas := some payload.Replicas }, Global := none }
  | some (isServiceSpec_Mode.Global _) =>
      pure { Replicated := none, Global := some {} }
  | none =>
      pure { Replicated := none, Global := none }

/-- Source lines 136-141: the port configuration built from one publish
specification. -/
def Create.portConfig (publish : PublishSpec) : swarm.PortConfig :=
  { Name := publish.Name
    Protocol := publish.Protocol
    TargetPort := publish.InternalPort
    PublishedPort := publish.PublishPort }

/-- The zero value of `swarm.PortConfig`, with which `make` fills the slice. -/
def Create.zeroPortConfig : swarm.PortConfig :=
  { Name := "", Protocol := "", TargetPort := 0, PublishedPort := 0 }

/-- Source lines 135-142: the `range` loop, from index `i` on, storing into `Ports`. -/
def Create.rangeLoop : List (Go.Ptr PublishSpec) → Nat → List swarm.PortConfig →
    Except Go.Panic (List swarm.PortConfig)
  | [], _, Ports => pure Ports
  | publish :: rest, i, Ports => do
      let p ← Go.deref publish
      let Ports ← Go.setIndex Ports i (Create.portConfig p)
      Create.rangeLoop rest (i + 1) Ports

/-- Source lines 128-144: the endpoint specification. -/
def Create.endpointSpec (PublishSpecs : Go.Slice (Go.Ptr PublishSpec)) :
    Except Go.Panic (Go.Ptr swarm.EndpointSpec) :=
  match PublishSpecs with
  | none => pure none
  | some specs =>
      let nn := specs.length
      if nn > 0 then do
        let Ports ← Create.rangeLoop specs 0 (List.replicate nn Create.zeroPortConfig)
        pure (some { Mode := swarm.ResolutionModeVIP, Ports := some Ports })
      else
        pure none

/-- Source lines 63-144 of `Create`: everything before the engine call.  Returns the
`service` value handed to the engine, and the caller's request as it stands in memory
afterwards: `service.Annotations.Labels` is the caller's own map when that map is not
nil, so the store of line 126 is visible through the request too, and through
`ContainerLabels` and `ContainerSpec.Labels` when these hold that same map object. -/
def Create.service (req : Go.Ptr ServiceCreateRequest) :
    Except Go.Panic (swarm.ServiceSpec × ServiceCreateRequest) := do
  let request ← Go.deref req
  let serv ← Go.deref request.ServiceSpec
  let serviceMode ← Create.serviceMode serv.Mode
  let service : swarm.ServiceSpec :=
    { Annotations := { Name := serv.Name, Labels := serv.Labels }
      TaskTemplate :=
        { ContainerSpec :=
            { Image := serv.Image
              Args := none
              Env := none
              Labels := serv.ContainerLabels
              Dir := ""
              User := ""
              Groups := none
              Mounts := none
              StopGracePeriod := none }
          Networks := some [{ Target := defaultNetwork, Aliases := some [serv.Name] }]
          Resources := none
          RestartPolicy := none
          Placement := some { Constraints := none }
          LogDriver := none }
      Networks := none
      UpdateConfig := some { Parallelism := 0, Delay := 0, FailureAction := "" }
      EndpointSpec := none
      Mode := serviceMode }
  -- add environment
  let service : swarm.ServiceSpec :=
    { service with
      TaskTemplate := { service.TaskTemplate with
        ContainerSpec := { service.TaskTemplate.ContainerSpec with Env := serv.Env } } }
  -- ensure supplied service label map is not nil, then add custom amp labels
  let shared := service.Annotations.Labels.isSome
  let labels : Go.Map :=
    match service.Annotations.Labels with
    | none => Go.Map.empty
    | some m => m
  let labels := labels.store serviceRoleLabelName "user"
  let service : swarm.ServiceSpec :=
    { service with Annotations := { service.Annotations with Labels := some labels } }
  -- the store went to the caller's map object when that was not nil
  let serv : ServiceSpec := if shared then { serv with Labels := some labels } else serv
  -- and it shows through the other references to that same object
  let sameObject := shared && serv.ContainerLabelsIsLabels
  let service : swarm.ServiceSpec :=
    if sameObject then
      { service with
        TaskTemplate := { service.TaskTemplate with
          ContainerSpec := { service.TaskTemplate.ContainerSpec with Labels := some labels } } }
    else service
  let serv : ServiceSpec :=
    if sameObject then { serv with ContainerLabels := some labels } else serv
  let EndpointSpec ← Create.endpointSpec serv.PublishSpecs
  let service : swarm.ServiceSpec := { service with EndpointSpec := EndpointSpec }
  pure (service, { request with ServiceSpec := some serv })

/-- What a call of `Create` leaves behind when it returns. -/
structure CreateReturn where
  response : Go.Ptr ServiceCreateResponse
  err : Option Go.error
  /-- The caller's request as it stands in memory after the call. -/
  req : ServiceCreateRequest
  world : World
  deriving DecidableEq, Repr

/-- Source lines 61-157: `Create` uses the Docker API to create a service. -/
def Create (docker : client.Client) (w : World) (req : Go.Ptr ServiceCreateRequest) :
    Except Go.Panic CreateReturn := do
  let (service, request) ← Create.service req
  let options : types.ServiceCreateOptions := {}
  let (r, err) := docker.ServiceCreate w service options
  let w := w ++ [Event.ServiceCreate service options]
  match err with
  | some e => pure { response := none, err := some e, req := request, world := w }
  | none =>
      let resp : ServiceCreateResponse := { Id := r.ID }
      let serv ← Go.deref request.ServiceSpec
      let w := w ++ [Event.Printf ("Service: " ++ serv.Name ++ " created, id=" ++ resp.Id ++ "\n")]
      pure { response := some resp, err := none, req := request, world := w }

/-- Source lines 41-44: the method `(*Service).Create`. -/
def Service.Create (docker : client.Client) (w : World) (req : Go.Ptr ServiceCreateRequest) :
    Except Go.Panic CreateReturn := do
  let ret ← service.Create docker w req
  pure { response := ret.response, err := ret.err, req := ret.req, world := ret.world }

/-! ## Package `service`: `Remove` -/

/-- Source lines 160-163: `Remove` uses the Docker API to remove a service. -/
def Remove (docker : client.Client) (w : World) (ID : String) : Option Go.error × World :=
  let w := w ++ [Event.Printf ("Service removed " ++ ID ++ "\n")]
  (docker.ServiceRemove w ID, w ++ [Event.ServiceRemove ID])

/-- What a call of `(*Service).Remove` leaves behind when it returns. -/
structure RemoveReturn where
  response : Go.Ptr RemoveResponse
  err : Option Go.error
  world : World
  deriving DecidableEq, Repr

/-- Source lines 47-58: the method `(*Service).Remove`. -/
def Service.Remove (docker : client.Client) (w : World) (req : Go.Ptr RemoveRequest) :
    Except Go.Panic RemoveReturn := do
  let request ← Go.deref req
  let (err, w) := service.Remove docker w request.Ident
  match err with
  | some e => pure { response := none, err := some e, world := w }
  | none =>
      let response : RemoveResponse := { Ident := request.Ident }
      pure { response := some response, err := none, world := w }

end service

/-! ## Closed forms used to state the lemmas -/

namespace service

/-- The map held in `service.Annotations.Labels` after source line 126, given the
caller's `Labels`. -/
def Create.labels (Labels : Option Go.Map) : Go.Map :=
  (Labels.getD Go.Map.empty).store serviceRoleLabelName "user"

/-- The contents of the map held in `ContainerSpec.Labels`, and in the caller's
`ContainerLabels`, after source line 126: those of the written map when the caller's
`ContainerLabels` is the same object as a `Labels` map that is not nil, else those the
caller supplied. -/
def Create.containerLabels (serv : ServiceSpec) : Option Go.Map :=
  if (serv.Labels.isSome && serv.ContainerLabelsIsLabels) = true then
    some (Create.labels serv.Labels)
  else serv.ContainerLabels

/-- The value of `service` at source line 145, given the service description and the
two computed parts (mode and endpoint specification). -/
def Create.assembled (serv : ServiceSpec) (serviceMode : swarm.ServiceMode)
    (EndpointSpec : Go.Ptr swarm.EndpointSpec) : swarm.ServiceSpec :=
  { Annotations := { Name := serv.Name, Labels := some (Create.labels serv.Labels) }
    TaskTemplate :=
      { ContainerSpec :=
          { Image := serv.Image
            Args := none
            Env := serv.Env
            Labels := Create.containerLabels serv
            Dir := ""
            User := ""
            Groups := none
            Mounts := none
            StopGracePeriod := none }
        Networks := some [{ Target := defaultNetwork, Aliases := some [serv.Name] }]
        Resources := none
        RestartPolicy := none
        Placement := some { Constraints := none }
        LogDriver := none }
    Networks := none
    UpdateConfig := some { Parallelism := 0, Delay := 0, FailureAction := "" }
    EndpointSpec := EndpointSpec
    Mode := serviceMode }

/-- The caller's service description as it stands in memory at source line 145. -/
def Create.servAfter (serv : ServiceSpec) : ServiceSpec :=
  if serv.Labels.isSome then
    { serv with
      Labels := some (Create.labels serv.Labels)
      ContainerLabels := Create.containerLabels serv }
  else serv

end service

/-! ## Concrete requests and engines -/

namespace service.Example

/-- The publish specification of the worked example. -/
def webPublish : PublishSpec :=
  { Name := "http", Protocol := "tcp", PublishPort := 8080, InternalPort := 80 }

/-- The service description of the worked example: a replicated web service
publishing one port, no labels. -/
def webService : ServiceSpec :=
  { Image := "nginx:latest"
    Name := "web"
    Mode := some (isServiceSpec_Mode.Replicated (some { Replicated := some { Replicas := 3 } }))
    Env := none
    Labels := none
    ContainerLabels := none
    PublishSpecs := some [some webPublish] }

/-- The create request of the worked example. -/
def webRequest : ServiceCreateRequest :=
  { ServiceSpec := some webService }

/-- The engine specification expected for the worked example. -/
def webSpec : swarm.ServiceSpec :=
  { Annotations := { Name := "web", Labels := some ⟨[("io.amp.role", "user")]⟩ }
    TaskTemplate :=
      { ContainerSpec :=
          { Image := "nginx:latest"
            Args := none
            Env := none
            Labels := none
            Dir := ""
            User := ""
            Groups := none
            Mounts := none
            StopGracePeriod := none }
        Networks := some [{ Target := "amp-public", Aliases := some ["web"] }]
        Resources := none
        RestartPolicy := none
        Placement := some { Constraints := none }
        LogDriver := none }
    Networks := none
    UpdateConfig := some { Parallelism := 0, Delay := 0, FailureAction := "" }
    EndpointSpec := some
      { Mode := "vip"
        Ports := some [{ Name := "http", Protocol := "tcp", TargetPort := 80, PublishedPort := 8080 }] }
    Mode := { Replicated := some { Replicas := some 3 }, Global := none } }

/-- A request whose mode was never set (the nil interface). -/
def unsetModeRequest : ServiceCreateRequest :=
  { ServiceSpec := some
      { Image := "busybox"
        Name := "probe"
        Mode := none
        Env := none
        Labels := none
        ContainerLabels := none
        PublishSpecs := none } }

/-- A request without a service description. -/
def noServiceSpecRequest : ServiceCreateRequest :=
  { ServiceSpec := none }

/-- A request in Replicated mode whose payload is absent. -/
def noPayloadRequest : ServiceCreateRequest :=
  { ServiceSpec := some
      { Image := "busybox"
        Name := "probe"
        Mode := some (isServiceSpec_Mode.Replicated (some { Replicated := none }))
        Env := none
        Labels := none
        ContainerLabels := none
        PublishSpecs := none } }

/-- A request whose publish slice holds a nil entry. -/
def nilPublishRequest : ServiceCreateRequest :=
  { ServiceSpec := some
      { Image := "busybox"
        Name := "probe"
        Mode := some (isServiceSpec_Mode.Global (some { Global := some {} }))
        Env := none
        Labels := none
        ContainerLabels := none
        PublishSpecs := some [none] } }

/-- A replicated service whose caller supplies labels without the role key, an
environment and container labels. -/
def labelledRequest : ServiceCreateRequest :=
  { ServiceSpec := some
      { Image := "redis:3"
        Name := "cache"
        Mode := some (isServiceSpec_Mode.Replicated (some { Replicated := some { Replicas := 2 } }))
        Env := some ["A=1", "B=2"]
        Labels := some ⟨[("tier", "back")]⟩
        ContainerLabels := some ⟨[("owner", "ops")]⟩
        PublishSpecs := none } }

/-- The one map object that `sharedMapRequest` holds in both of its map fields. -/
def sharedMap : Go.Map := ⟨[("tier", "back")]⟩

/-- A request whose caller assigned one map object to both `Labels` and
`ContainerLabels`. -/
def sharedMapRequest : ServiceCreateRequest :=
  { ServiceSpec := some
      { Image := "redis:3"
        Name := "cache"
        Mode := some (isServiceSpec_Mode.Replicated (some { Replicated := some { Replicas := 2 } }))
        Env := none
        Labels := some sharedMap
        ContainerLabels := some sharedMap
        PublishSpecs := none
        ContainerLabelsIsLabels := true } }

/-- A request whose caller supplies a labels map that is present but empty. -/
def emptyLabelsRequest : ServiceCreateRequest :=
  { ServiceSpec := some
      { Image := "busybox"
        Name := "probe"
        Mode := some (isServiceSpec_Mode.Global (some { Global := some {} }))
        Env := none
        Labels := some ⟨[]⟩
        ContainerLabels := none
        PublishSpecs := none } }

/-- An engine that accepts every call and names the new service `abc123`. -/
def dockerOk : client.Client :=
  { ServiceCreate := fun _ _ _ => ({ ID := "abc123" }, none)
    ServiceRemove := fun _ _ => none }

/-- An engine that rejects every call. -/
def dockerFail : client.Client :=
  { ServiceCreate := fun _ _ _ => ({ ID := "" }, some { msg := "name conflict" })
    ServiceRemove := fun _ ID => some { msg := "service " ++ ID ++ " not found" } }

end service.Example

/-! ## Lemmas on the Go run-time model -/

namespace Go

theorem Map.lookup_store_self (m : Map) (key val : String) :
    (m.store key val).lookup key = some val := by
  simp [Map.store, Map.lookup]

theorem Map.lookup_store_other (m : Map) (key val k : String) (hk : k ≠ key) :
    (m.store key val).lookup k = m.lookup k := by
  have hne : ¬ key = k := fun h => hk h.symm
  have hpred : (fun kv : String × String =>
      decide (decide (kv.1 ≠ key) = true ∧ decide (kv.1 = k) = true)) =
      fun kv => decide (kv.1 = k) := by
    funext kv
    by_cases h : kv.1 = k <;> simp [h, hk]
  simp only [Map.store, Map.lookup, List.find?_cons, hne, decide_False, List.find?_filter, hpred]

theorem setIndex_append {α : Type} (done : List α) (t : α) (todo : List α) (v : α) :
    setIndex (done ++ t :: todo) done.length v = Except.ok (done ++ v :: todo) := by
  simp [setIndex]

end Go

/-! ## Lemmas on the parts of `Create` -/

namespace service

theorem Create.rangeLoop_ok (pubs : List PublishSpec) :
    ∀ (done todo : List swarm.PortConfig), pubs.length ≤ todo.length →
      Create.rangeLoop (pubs.map some) done.length (done ++ todo) =
        Except.ok (done ++ pubs.map Create.portConfig ++ todo.drop pubs.length) := by
  induction pubs with
  | nil => intro done todo _; simp [Create.rangeLoop, pure, Except.pure]
  | cons p ps ih =>
    intro done todo hlen
    cases todo with
    | nil => simp at hlen
    | cons t ts =>
      have hts : ps.length ≤ ts.length := by simpa using hlen
      have := ih (done ++ [Create.portConfig p]) ts hts
      simp only [List.length_append, List.length_singleton, List.append_assoc,
        List.singleton_append] at this
      simp [Create.rangeLoop, Go.deref, Go.setIndex_append, bind, Except.bind, this]

/-- The endpoint block on a slice without nil entries: absent for no entries, else one
port per entry, in order. -/
theorem Create.endpointSpec_map_some (pubs : List PublishSpec) :
    Create.endpointSpec (some (pubs.map some)) =
      Except.ok (if pubs = [] then none
        else some { Mode := swarm.ResolutionModeVIP, Ports := some (pubs.map Create.portConfig) }) := by
  cases pubs with
  | nil => simp [Create.endpointSpec, pure, Except.pure]
  | cons p ps =>
    have h := Create.rangeLoop_ok (p :: ps) []
      (List.replicate (p :: ps).length Create.zeroPortConfig) (by simp)
    simp only [List.length_nil, List.nil_append, List.length_cons, List.drop_replicate,
      Nat.sub_self, List.replicate_zero, List.append_nil] at h
    simp only [List.map_cons] at h
    simp [Create.endpointSpec, h, bind, Except.bind, pure, Except.pure]

theorem Create.service_eq (request : ServiceCreateRequest) (serv : ServiceSpec)
    (hserv : request.ServiceSpec = some serv) :
    Create.service (some request) =
      (Create.serviceMode serv.Mode).bind (fun serviceMode =>
        (Create.endpointSpec serv.PublishSpecs).bind (fun EndpointSpec =>
          Except.ok (Create.assembled serv serviceMode EndpointSpec,
            { ServiceSpec := some (Create.servAfter serv) }))) := by
  cases hm : Create.serviceMode serv.Mode with
  | error e => simp [Create.service, Go.deref, hserv, hm, bind, Except.bind]
  | ok serviceMode =>
    cases he : Create.endpointSpec serv.PublishSpecs with
    | error e =>
      cases hl : serv.Labels <;> cases hf : serv.ContainerLabelsIsLabels <;>
        simp [Create.service, Go.deref, hserv, hm, hl, hf, he, bind, Except.bind]
    | ok ep =>
      cases hl : serv.Labels <;> cases hf : serv.ContainerLabelsIsLabels <;>
        simp [Create.service, Go.deref, hserv, hm, hl, hf, he, bind, Except.bind, pure,
          Except.pure, Create.assembled, Create.servAfter, Create.labels,
          Create.containerLabels]

/-- Whenever the translation completes, the request and its service description were
present, both computed parts completed, and the result is the assembled value. -/
theorem Create.service_inv (req : Go.Ptr ServiceCreateRequest) (spec : swarm.ServiceSpec)
    (after : ServiceCreateRequest) (h : Create.service req = Except.ok (spec, after)) :
    ∃ (request : ServiceCreateRequest) (serv : ServiceSpec) (serviceMode : swarm.ServiceMode)
      (ep : Go.Ptr swarm.EndpointSpec),
      req = some request ∧ request.ServiceSpec = some serv ∧
      Create.serviceMode serv.Mode = Except.ok serviceMode ∧
      Create.endpointSpec serv.PublishSpecs = Except.ok ep ∧
      spec = Create.assembled serv serviceMode ep ∧
      after = { ServiceSpec := some (Create.servAfter serv) } := by
  cases req with
  | none => simp [Create.service, Go.deref, bind, Except.bind] at h
  | some request =>
    cases hserv : request.ServiceSpec with
    | none => simp [Create.service, Go.deref, hserv, bind, Except.bind] at h
    | some serv =>
      rw [Create.service_eq request serv hserv] at h
      cases hm : Create.serviceMode serv.Mode with
      | error e => simp [hm, Except.bind] at h
      | ok serviceMode =>
        cases he : Create.endpointSpec serv.PublishSpecs with
        | error e => simp [hm, he, Except.bind] at h
        | ok ep =>
          simp only [hm, he, Except.bind, Except.ok.injEq, Prod.mk.injEq] at h
          exact ⟨request, serv, serviceMode, ep, rfl, hserv, hm, he, h.1.symm, h.2.symm⟩

end service

/-! ## Lemmas on `Create` and the world -/

theorem World.createCalls_append (w v : World) :
    World.createCalls (w ++ v) = World.createCalls w + World.createCalls v := by
  induction w with
  | nil => simp [World.createCalls]
  | cons e w ih =>
    cases e with
    | ServiceCreate service options => simp [World.createCalls, ih]; omega
    | ServiceRemove ID => simp [World.createCalls, ih]
    | Printf line => simp [World.createCalls, ih]

theorem World.removeCalls_append (w v : World) :
    World.removeCalls (w ++ v) = World.removeCalls w + World.removeCalls v := by
  induction w with
  | nil => simp [World.removeCalls]
  | cons e w ih =>
    cases e with
    | ServiceCreate service options => simp [World.removeCalls, ih]
    | ServiceRemove ID => simp [World.removeCalls, ih]; omega
    | Printf line => simp [World.removeCalls, ih]

namespace service

/-- Once the translation has completed with `spec`, a call of `Create` asks the engine
once, with `spec`, and returns according to the engine's answer. -/
theorem Create.eq_of_service (docker : client.Client) (w : World)
    (req : Go.Ptr ServiceCreateRequest) (spec : swarm.ServiceSpec)
    (after : ServiceCreateRequest) (h : Create.service req = Except.ok (spec, after)) :
    ∃ line : String, Create docker w req = Except.ok
      (match (docker.ServiceCreate w spec {}).2 with
        | some e =>
          { response := none, err := some e, req := after
            world := w ++ [Event.ServiceCreate spec {}] }
        | none =>
          { response := some { Id := (docker.ServiceCreate w spec {}).1.ID }, err := none
            req := after
            world := w ++ [Event.ServiceCreate spec {}, Event.Printf line] }) := by
  obtain ⟨request, serv, serviceMode, ep, _, _, _, _, _, hafter⟩ := Create.service_inv _ _ _ h
  cases herr : (docker.ServiceCreate w spec {}).2 with
  | some e =>
    refine ⟨"", ?_⟩
    simp [Create, h, herr, bind, Except.bind, pure, Except.pure]
  | none =>
    refine ⟨"Service: " ++ (Create.servAfter serv).Name ++ " created, id=" ++
      (docker.ServiceCreate w spec {}).1.ID ++ "\n", ?_⟩
    simp [Create, h, herr, hafter, Go.deref, bind, Except.bind, pure, Except.pure]

theorem Create.all_present (specs : List (Go.Ptr PublishSpec))
    (h : ∀ p ∈ specs, p ≠ none) : ∃ pubs : List PublishSpec, specs = pubs.map some := by
  induction specs with
  | nil => exact ⟨[], rfl⟩
  | cons s rest ih =>
    obtain ⟨pubs, hpubs⟩ := ih (fun p hp => h p (List.mem_cons_of_mem _ hp))
    cases s with
    | none => exact absurd rfl (h none (List.mem_cons_self _ _))
    | some p => exact ⟨p :: pubs, by simp [hpubs]⟩

/-- The whole of `(*Service).Remove` on a request that is not nil. -/
theorem Service.Remove_eq (docker : client.Client) (w : World) (s : String) :
    Service.Remove docker w (some { Ident := s }) = Except.ok
      (match docker.ServiceRemove (w ++ [Event.Printf ("Service removed " ++ s ++ "\n")]) s with
        | some e =>
          { response := none, err := some e
            world := w ++ [Event.Printf ("Service removed " ++ s ++ "\n"), Event.ServiceRemove s] }
        | none =>
          { response := some { Ident := s }, err := none
            world := w ++ [Event.Printf ("Service removed " ++ s ++ "\n"), Event.ServiceRemove s] }) := by
  cases herr : docker.ServiceRemove (w ++ [Event.Printf ("Service removed " ++ s ++ "\n")]) s with
  | none =>
    simp [Service.Remove, service.Remove, Go.deref, herr, bind, Except.bind, pure, Except.pure]
  | some e =>
    simp [Service.Remove, service.Remove, Go.deref, herr, bind, Except.bind, pure, Except.pure]

end service

/-! ## The translation of a create request -/

namespace service

end service

/-! ## The handlers and the engine -/

namespace service

/-- C6: Create relays the engine's result.  Once the spec is built, if ServiceCreate
answers identifier id without error then Create returns the response with Id = id and
no error; if it answers error e then Create returns no response and exactly e; either
way the engine is asked once, with that spec, and the method on Service returns what
Create returns. -/
theorem Create_relays_engine_result (docker : client.Client) (w : World)
    (req : Go.Ptr ServiceCreateRequest) (spec : swarm.ServiceSpec)
    (after : ServiceCreateRequest) (h : Create.service req = Except.ok (spec, after)) :
    (∀ id : String, docker.ServiceCreate w spec {} = ({ ID := id }, none) →
      ∃ (ret : CreateReturn) (line : String), Create docker w req = Except.ok ret ∧
        ret.response = some { Id := id } ∧ ret.err = none ∧
        ret.world = w ++ [Event.ServiceCreate spec {}, Event.Printf line]) ∧
    (∀ (r : types.ServiceCreateResponse) (e : Go.error),
      docker.ServiceCreate w spec {} = (r, some e) →
      ∃ ret : CreateReturn, Create docker w req = Except.ok ret ∧
        ret.response = none ∧ ret.err = some e ∧
        ret.world = w ++ [Event.ServiceCreate spec {}]) ∧
    (∃ ret : CreateReturn, Create docker w req = Except.ok ret ∧
      World.createCalls ret.world = World.createCalls w + 1) ∧
    Service.Create docker w req = Create docker w req := by
  obtain ⟨line, hc⟩ := Create.eq_of_service docker w req spec after h
  refine ⟨?_, ?_, ?_, ?_⟩
  · intro id hid
    rw [hid] at hc
    exact ⟨_, line, hc, rfl, rfl, rfl⟩
  · intro r e hre
    rw [hre] at hc
    exact ⟨_, hc, rfl, rfl, rfl⟩
  · refine ⟨_, hc, ?_⟩
    cases (docker.ServiceCreate w spec {}).2 <;>
      simp [World.createCalls_append, World.createCalls]
  · simp [Service.Create, hc, bind, Except.bind, pure, Except.pure]

/-- C6 at the worked example, once against an engine that accepts and once against an
engine that rejects. -/
theorem Create_relays_engine_result_witness :
    (∃ (ret : CreateReturn) (line : String),
      Create Example.dockerOk [] (some Example.webRequest) = Except.ok ret ∧
      ret.response = some { Id := "abc123" } ∧ ret.err = none ∧
      ret.world = [] ++ [Event.ServiceCreate Example.webSpec {}, Event.Printf line]) ∧
    (∃ ret : CreateReturn,
      Create Example.dockerFail [] (some Example.webRequest) = Except.ok ret ∧
      ret.response = none ∧ ret.err = some { msg := "name conflict" } ∧
      ret.world = [] ++ [Event.ServiceCreate Example.webSpec {}]) :=
  ⟨(Create_relays_engine_result Example.dockerOk [] (some Example.webRequest)
      Example.webSpec _ rfl).1
      "abc123" rfl,
   (Create_relays_engine_result Example.dockerFail [] (some Example.webRequest)
      Example.webSpec _ rfl).2.1
      { ID := "" } { msg := "name conflict" } rfl⟩

/-- C7: for a remove request with identifier s, Service.Remove hands exactly s to the
engine's ServiceRemove, in a single call, and whenever the engine answers without error
the response is the one with Ident = s and the error is nil. -/
theorem Service_Remove_forwards_ident (docker : client.Client) (w : World) (s : String) :
    ∃ ret : RemoveReturn,
      Service.Remove docker w (some { Ident := s }) = Except.ok ret ∧
      ret.world =
        w ++ [Event.Printf ("Service removed " ++ s ++ "\n"), Event.ServiceRemove s] ∧
      (docker.ServiceRemove (w ++ [Event.Printf ("Service removed " ++ s ++ "\n")]) s = none →
        ret.response = some { Ident := s } ∧ ret.err = none) := by
  refine ⟨_, Service.Remove_eq docker w s, ?_, ?_⟩
  · cases docker.ServiceRemove (w ++ [Event.Printf ("Service removed " ++ s ++ "\n")]) s <;> rfl
  · intro hnone
    rw [hnone]
    exact ⟨rfl, rfl⟩

/-- C7 for the identifier "svc123" against an engine that accepts. -/
theorem Service_Remove_forwards_ident_witness :
    ∃ ret : RemoveReturn,
      Service.Remove Example.dockerOk [] (some { Ident := "svc123" }) = Except.ok ret ∧
      ret.world = [Event.Printf "Service removed svc123\n", Event.ServiceRemove "svc123"] ∧
      ret.response = some { Ident := "svc123" } ∧ ret.err = none := by
  obtain ⟨ret, hret, hworld, hok⟩ := Service_Remove_forwards_ident Example.dockerOk [] "svc123"
  exact ⟨ret, hret, hworld, hok rfl⟩

/-- C8: for a remove request with identifier s, Service.Remove returns as its error
exactly what the engine's ServiceRemove answered, so an error if and only if the engine
gave one; when the engine answered error e the response is absent and the error is e;
the engine is asked once. -/
theorem Service_Remove_relays_error (docker : client.Client) (w : World) (s : String) :
    ∃ ret : RemoveReturn,
      Service.Remove docker w (some { Ident := s }) = Except.ok ret ∧
      ret.err = docker.ServiceRemove (w ++ [Event.Printf ("Service removed " ++ s ++ "\n")]) s ∧
      (Remove docker w s).1 =
        docker.ServiceRemove (w ++ [Event.Printf ("Service removed " ++ s ++ "\n")]) s ∧
      (∀ e : Go.error,
        docker.ServiceRemove (w ++ [Event.Printf ("Service removed " ++ s ++ "\n")]) s = some e →
          ret.response = none ∧ ret.err = some e) ∧
      World.removeCalls ret.world = World.removeCalls w + 1 := by
  refine ⟨_, Service.Remove_eq docker w s, ?_, rfl, ?_, ?_⟩
  · cases docker.ServiceRemove (w ++ [Event.Printf ("Service removed " ++ s ++ "\n")]) s <;> rfl
  · intro e he
    rw [he]
    exact ⟨rfl, rfl⟩
  · cases docker.ServiceRemove (w ++ [Event.Printf ("Service removed " ++ s ++ "\n")]) s <;>
      simp [World.removeCalls_append, World.removeCalls]

/-- C8 for the identifier "svc123" against an engine that knows no such service. -/
theorem Service_Remove_relays_error_witness :
    ∃ ret : RemoveReturn,
      Service.Remove Example.dockerFail [] (some { Ident := "svc123" }) = Except.ok ret ∧
      ret.response = none ∧ ret.err = some { msg := "service svc123 not found" } := by
  obtain ⟨ret, hret, _, _, herr, _⟩ := Service_Remove_relays_error Example.dockerFail [] "svc123"
  exact ⟨ret, hret, herr { msg := "service svc123 not found" } (by decide)⟩

end service

/-! ## Mode invariant and totality -/

namespace service

/-- C10, as stated, fails: a request without service description, a Replicated mode
without payload, and a publish slice with a nil entry each make the translation fault
with a nil dereference, and Create then ends in that fault without asking the engine. -/
theorem Create_faults_on_absent_parts :
    Create.service (some Example.noServiceSpecRequest) =
      Except.error Go.Panic.nilDereference ∧
    Create.service (some Example.noPayloadRequest) = Except.error Go.Panic.nilDereference ∧
    Create.service (some Example.nilPublishRequest) = Except.error Go.Panic.nilDereference ∧
    Create Example.dockerOk [] (some Example.noServiceSpecRequest) =
      Except.error Go.Panic.nilDereference ∧
    Create Example.dockerOk [] (some Example.noPayloadRequest) =
      Except.error Go.Panic.nilDereference :=
  ⟨rfl, rfl, rfl, rfl, rfl⟩

/-- C10, amended: for every create request whose service description is present, whose
Replicated mode (when that is the mode) has its payload, and whose publish slice has no
nil entry, with any Name, Image, Env, Labels, ContainerLabels, any mode including the
unset one and any number of publish specs, building the spec completes without fault,
Create returns, and the error it returns is exactly the one the engine's ServiceCreate
answered (none if the engine gave none). -/
theorem Create_total_on_present_parts (docker : client.Client) (w : World)
    (req : ServiceCreateRequest) (serv : ServiceSpec)
    (hserv : req.ServiceSpec = some serv)
    (hmode : ∀ mode : Go.Ptr ServiceSpec_Replicated,
      serv.Mode = some (isServiceSpec_Mode.Replicated mode) →
        ∃ R : Nat, mode = some { Replicated := some { Replicas := R } })
    (hpub : ∀ specs : List (Go.Ptr PublishSpec), serv.PublishSpecs = some specs →
      ∀ p ∈ specs, p ≠ none) :
    ∃ (spec : swarm.ServiceSpec) (after : ServiceCreateRequest) (ret : CreateReturn),
      Create.service (some req) = Except.ok (spec, after) ∧
      Create docker w (some req) = Except.ok ret ∧
      ret.err = (docker.ServiceCreate w spec {}).2 := by
  have hm : ∃ serviceMode, Create.serviceMode serv.Mode = Except.ok serviceMode := by
    cases hmd : serv.Mode with
    | none => exact ⟨_, rfl⟩
    | some m =>
      cases m with
      | Global g => exact ⟨_, rfl⟩
      | Replicated mode =>
        obtain ⟨R, hR⟩ := hmode mode hmd
        subst hR
        exact ⟨_, rfl⟩
  have he : ∃ ep, Create.endpointSpec serv.PublishSpecs = Except.ok ep := by
    cases hp : serv.PublishSpecs with
    | none => exact ⟨_, rfl⟩
    | some specs =>
      obtain ⟨pubs, rfl⟩ := Create.all_present specs (hpub specs hp)
      exact ⟨_, Create.endpointSpec_map_some pubs⟩
  obtain ⟨serviceMode, hm⟩ := hm
  obtain ⟨ep, he⟩ := he
  have hs : Create.service (some req) =
      Except.ok (Create.assembled serv serviceMode ep,
        { ServiceSpec := some (Create.servAfter serv) }) := by
    rw [Create.service_eq req serv hserv, hm, he]
    rfl
  obtain ⟨line, hc⟩ := Create.eq_of_service docker w _ _ _ hs
  refine ⟨_, _, _, hs, hc, ?_⟩
  cases (docker.ServiceCreate w (Create.assembled serv serviceMode ep) {}).2 <;> rfl

/-- C10, amended, at a request with nil Env, nil Labels and nil ContainerLabels, and at
a request without mode and with a nil publish slice. -/
theorem Create_total_on_present_parts_witness :
    (∃ (spec : swarm.ServiceSpec) (after : ServiceCreateRequest) (ret : CreateReturn),
      Create.service (some Example.webRequest) = Except.ok (spec, after) ∧
      Create Example.dockerFail [] (some Example.webRequest) = Except.ok ret ∧
      ret.err = (Example.dockerFail.ServiceCreate [] spec {}).2) ∧
    (∃ (spec : swarm.ServiceSpec) (after : ServiceCreateRequest) (ret : CreateReturn),
      Create.service (some Example.unsetModeRequest) = Except.ok (spec, after) ∧
      Create Example.dockerOk [] (some Example.unsetModeRequest) = Except.ok ret ∧
      ret.err = (Example.dockerOk.ServiceCreate [] spec {}).2) :=
  ⟨Create_total_on_present_parts Example.dockerFail [] Example.webRequest Example.webService rfl
      (fun mode hmode => ⟨3, by cases hmode; rfl⟩)
      (fun specs hspecs p hp => by cases hspecs; simp at hp; simp [hp]),
    Create_total_on_present_parts Example.dockerOk [] Example.unsetModeRequest _ rfl
      (fun mode hmode => by cases hmode)
      (fun specs hspecs => by cases hspecs)⟩

end service

/-! ## Frame conditions and copied values -/

namespace service

/-- Whenever `Create` returns, the translation had completed, and the request it
leaves behind is the one the translation left. -/
theorem Create.inv (docker : client.Client) (w : World) (req : Go.Ptr ServiceCreateRequest)
    (ret : CreateReturn) (h : Create docker w req = Except.ok ret) :
    ∃ (spec : swarm.ServiceSpec) (after : ServiceCreateRequest),
      Create.service req = Except.ok (spec, after) ∧ ret.req = after := by
  cases hs : Create.service req with
  | error e => simp [Create, hs, bind, Except.bind] at h
  | ok p =>
    obtain ⟨spec, after⟩ := p
    obtain ⟨line, hc⟩ := Create.eq_of_service docker w req spec after hs
    rw [hc] at h
    refine ⟨spec, after, rfl, ?_⟩
    have hret := Except.ok.inj h
    subst hret
    cases (docker.ServiceCreate w spec {}).2 <;> rfl

/-- C11, as stated, fails: after Create returns on a request whose labels are
tier=back, the caller's own labels map binds the role key "io.amp.role" to "user", which
it did not bind before the call. -/
theorem Create_writes_caller_labels :
    ∃ ret : CreateReturn,
      Create Example.dockerOk [] (some Example.labelledRequest) = Except.ok ret ∧
      ret.req ≠ Example.labelledRequest ∧
      Go.Map.read (Example.labelledRequest.ServiceSpec.bind (fun serv => serv.Labels))
        "io.amp.role" = none ∧
      Go.Map.read (ret.req.ServiceSpec.bind (fun serv => serv.Labels))
        "io.amp.role" = some "user" :=
  ⟨_, rfl, by decide, rfl, rfl⟩

/-- C11, amended: after Create returns, the caller's request is as before except for
the map object held in Labels when that is present: Name, Image, Mode, Env and
PublishSpecs are unchanged, a request without Labels is unchanged altogether, and a
Labels map that is present binds every key other than "io.amp.role" as before and
binds "io.amp.role" to "user".  ContainerLabels is unchanged when it is a different map
object from Labels; when the caller passed one map object as both, it is that written
map, so it too changes in the "io.amp.role" key only. -/
theorem Create_request_changes_only_role_label (docker : client.Client) (w : World)
    (req : ServiceCreateRequest) (serv : ServiceSpec) (ret : CreateReturn)
    (hserv : req.ServiceSpec = some serv)
    (h : Create docker w (some req) = Except.ok ret) :
    ∃ servAfter : ServiceSpec, ret.req = { ServiceSpec := some servAfter } ∧
      servAfter.Image = serv.Image ∧ servAfter.Name = serv.Name ∧
      servAfter.Mode = serv.Mode ∧ servAfter.Env = serv.Env ∧
      servAfter.PublishSpecs = serv.PublishSpecs ∧
      servAfter.ContainerLabelsIsLabels = serv.ContainerLabelsIsLabels ∧
      (serv.Labels = none → ret.req = req) ∧
      (∀ m : Go.Map, serv.Labels = some m →
        ∃ mAfter : Go.Map, servAfter.Labels = some mAfter ∧
          mAfter.lookup "io.amp.role" = some "user") ∧
      (∀ k : String, k ≠ "io.amp.role" →
        Go.Map.read servAfter.Labels k = Go.Map.read serv.Labels k) ∧
      (serv.ContainerLabelsIsLabels = false →
        servAfter.ContainerLabels = serv.ContainerLabels) ∧
      (serv.ContainerLabelsIsLabels = true → serv.Labels.isSome = true →
        servAfter.ContainerLabels = servAfter.Labels) ∧
      ((serv.ContainerLabelsIsLabels = true → serv.ContainerLabels = serv.Labels) →
        ∀ k : String, k ≠ "io.amp.role" →
          Go.Map.read servAfter.ContainerLabels k = Go.Map.read serv.ContainerLabels k) := by
  obtain ⟨spec, after, hs, hafter⟩ := Create.inv docker w _ ret h
  obtain ⟨request, serv2, serviceMode, ep, hreq, hserv2, _, _, _, hafter2⟩ :=
    Create.service_inv _ _ _ hs
  cases hreq
  rw [hserv] at hserv2
  cases hserv2
  refine ⟨Create.servAfter serv, by rw [hafter, hafter2], ?_⟩
  cases hl : serv.Labels with
  | none =>
    have hsame : Create.servAfter serv = serv := by simp [Create.servAfter, hl]
    rw [hsame, hafter, hafter2, hsame]
    refine ⟨rfl, rfl, rfl, rfl, rfl, rfl, ?_, ?_, ?_, ?_, ?_, ?_⟩
    · intro _
      cases req
      simp_all
    · intro m hm
      cases hm
    · intro k _
      rw [hl]
    · intro _
      rfl
    · intro _ hsome
      simp at hsome
    · intro _ k _
      rfl
  | some m =>
    have hframe : ∀ k : String, k ≠ "io.amp.role" →
        (m.store serviceRoleLabelName "user").lookup k = m.lookup k :=
      fun k hk => Go.Map.lookup_store_other m serviceRoleLabelName "user" k hk
    cases hf : serv.ContainerLabelsIsLabels with
    | false =>
      have hnew : Create.servAfter serv =
          { serv with Labels := some (m.store serviceRoleLabelName "user") } := by
        simp [Create.servAfter, Create.labels, Create.containerLabels, hl, hf]
      rw [hnew]
      refine ⟨rfl, rfl, rfl, rfl, rfl, hf, ?_, ?_, ?_, ?_, ?_, ?_⟩
      · intro hn
        cases hn
      · intro m2 _
        exact ⟨_, rfl, Go.Map.lookup_store_self _ _ _⟩
      · intro k hk
        exact hframe k hk
      · intro _
        rfl
      · intro hflag
        cases hflag
      · intro _ k _
        rfl
    | true =>
      have hnew : Create.servAfter serv =
          { serv with
            Labels := some (m.store serviceRoleLabelName "user")
            ContainerLabels := some (m.store serviceRoleLabelName "user") } := by
        simp [Create.servAfter, Create.labels, Create.containerLabels, hl, hf]
      rw [hnew]
      refine ⟨rfl, rfl, rfl, rfl, rfl, hf, ?_, ?_, ?_, ?_, ?_, ?_⟩
      · intro hn
        cases hn
      · intro m2 _
        exact ⟨_, rfl, Go.Map.lookup_store_self _ _ _⟩
      · intro k hk
        exact hframe k hk
      · intro hflag
        cases hflag
      · intro _ _
        rfl
      · intro hwf k hk
        rw [hwf rfl]
        exact hframe k hk

/-- C11, amended, at a request with labels tier=back and other container labels, at
the worked example, which has no labels, and at a request holding one map object in
both map fields. -/
theorem Create_request_changes_only_role_label_witness :
    (∃ (ret : CreateReturn) (servAfter : ServiceSpec),
      Create Example.dockerOk [] (some Example.labelledRequest) = Except.ok ret ∧
      ret.req = { ServiceSpec := some servAfter } ∧
      servAfter.Env = some ["A=1", "B=2"] ∧
      Go.Map.read servAfter.Labels "tier" = some "back" ∧
      servAfter.ContainerLabels = some ⟨[("owner", "ops")]⟩) ∧
    (∃ ret : CreateReturn,
      Create Example.dockerOk [] (some Example.webRequest) = Except.ok ret ∧
      ret.req = Example.webRequest) ∧
    (∃ (ret : CreateReturn) (servAfter : ServiceSpec),
      Create Example.dockerOk [] (some Example.sharedMapRequest) = Except.ok ret ∧
      ret.req = { ServiceSpec := some servAfter } ∧
      servAfter.ContainerLabels = servAfter.Labels ∧
      Go.Map.read servAfter.ContainerLabels "tier" = some "back") := by
  refine ⟨?_, ?_, ?_⟩
  · obtain ⟨servAfter, hreq, _, _, _, henv, _, _, _, _, hframe, hown, _, _⟩ :=
      Create_request_changes_only_role_label Example.dockerOk [] Example.labelledRequest _ _
        rfl rfl
    exact ⟨_, servAfter, rfl, hreq, henv, hframe "tier" (by decide), hown rfl⟩
  · obtain ⟨_, _, _, _, _, _, _, _, hsame, _⟩ :=
      Create_request_changes_only_role_label Example.dockerOk [] Example.webRequest _ _
        rfl rfl
    exact ⟨_, rfl, hsame rfl⟩
  · obtain ⟨servAfter, hreq, _, _, _, _, _, _, _, _, _, _, hshared, hcl⟩ :=
      Create_request_changes_only_role_label Example.dockerOk [] Example.sharedMapRequest _ _
        rfl rfl
    exact ⟨_, servAfter, rfl, hreq, hshared rfl rfl,
      hcl (fun _ => rfl) "tier" (by decide)⟩

/-- C13: whatever the request, the features it does not carry are emitted as zero or
absent: ContainerSpec Args, Groups, Mounts and StopGracePeriod are absent, Dir and User
are empty; TaskTemplate Resources, RestartPolicy and LogDriver are absent; Placement
has no constraints; UpdateConfig has Parallelism 0, Delay 0 and empty FailureAction. -/
theorem Create_unmodelled_features_zero (req : Go.Ptr ServiceCreateRequest)
    (spec : swarm.ServiceSpec) (after : ServiceCreateRequest)
    (h : Create.service req = Except.ok (spec, after)) :
    spec.TaskTemplate.ContainerSpec.Args = none ∧
    spec.TaskTemplate.ContainerSpec.Groups = none ∧
    spec.TaskTemplate.ContainerSpec.Mounts = none ∧
    spec.TaskTemplate.ContainerSpec.StopGracePeriod = none ∧
    spec.TaskTemplate.ContainerSpec.Dir = "" ∧
    spec.TaskTemplate.ContainerSpec.User = "" ∧
    spec.TaskTemplate.Resources = none ∧
    spec.TaskTemplate.RestartPolicy = none ∧
    spec.TaskTemplate.LogDriver = none ∧
    spec.TaskTemplate.Placement = some { Constraints := none } ∧
    spec.UpdateConfig = some { Parallelism := 0, Delay := 0, FailureAction := "" } := by
  obtain ⟨request, serv, serviceMode, ep, _, _, _, _, hspec, _⟩ := Create.service_inv _ _ _ h
  simp [hspec, Create.assembled]

/-- C13 at a request that does carry environment, labels and container labels. -/
theorem Create_unmodelled_features_zero_witness :
    ∃ (spec : swarm.ServiceSpec) (after : ServiceCreateRequest),
      Create.service (some Example.labelledRequest) = Except.ok (spec, after) ∧
      spec.TaskTemplate.ContainerSpec.Args = none ∧
      spec.TaskTemplate.ContainerSpec.Groups = none ∧
      spec.TaskTemplate.ContainerSpec.Mounts = none ∧
      spec.TaskTemplate.ContainerSpec.StopGracePeriod = none ∧
      spec.TaskTemplate.ContainerSpec.Dir = "" ∧
      spec.TaskTemplate.ContainerSpec.User = "" ∧
      spec.TaskTemplate.Resources = none ∧
      spec.TaskTemplate.RestartPolicy = none ∧
      spec.TaskTemplate.LogDriver = none ∧
      spec.TaskTemplate.Placement = some { Constraints := none } ∧
      spec.UpdateConfig = some { Parallelism := 0, Delay := 0, FailureAction := "" } :=
  ⟨_, _, rfl, Create_unmodelled_features_zero (some Example.labelledRequest) _ _ rfl⟩

/-- C14: the worked example.  The request for service "web", image "nginx:latest",
three replicas, one publish spec http/tcp 80 -> 8080 and no labels is translated to a
spec with Annotations.Name "web", Mode.Replicated.Replicas 3, exactly one network
attachment (Target "amp-public", Aliases ["web"]), an EndpointSpec in VIP mode with
exactly the port http/tcp, TargetPort 80, PublishedPort 8080, and Annotations.Labels
equal to the single binding of "io.amp.role" to "user". -/
theorem Create_worked_example :
    ∃ (spec : swarm.ServiceSpec) (after : ServiceCreateRequest),
      Create.service (some
        { ServiceSpec := some
            { Image := "nginx:latest"
              Name := "web"
              Mode := some (isServiceSpec_Mode.Replicated
                (some { Replicated := some { Replicas := 3 } }))
              Env := none
              Labels := none
              ContainerLabels := none
              PublishSpecs := some
                [some { Name := "http", Protocol := "tcp", PublishPort := 8080,
                        InternalPort := 80 }] } }) = Except.ok (spec, after) ∧
      spec.Annotations.Name = "web" ∧
      spec.Mode.Replicated = some { Replicas := some 3 } ∧
      spec.Mode.Global = none ∧
      spec.TaskTemplate.Networks =
        some [{ Target := "amp-public", Aliases := some ["web"] }] ∧
      spec.EndpointSpec = some
        { Mode := swarm.ResolutionModeVIP
          Ports := some
            [{ Name := "http", Protocol := "tcp", TargetPort := 80, PublishedPort := 8080 }] } ∧
      spec.Annotations.Labels = some ⟨[("io.amp.role", "user")]⟩ ∧
      spec = Example.webSpec :=
  ⟨_, _, rfl, rfl, rfl, rfl, rfl, rfl, rfl, rfl⟩

/-- C15: the label merge changes nothing but the role key.  For every key other than
"io.amp.role" the outgoing Annotations.Labels binds the key exactly as the caller's
Labels does (the same value, or absent in both); and when the caller supplies no
labels or an empty map, the outgoing labels are exactly the single binding of
"io.amp.role" to "user". -/
theorem Create_labels_merge_frame (req : ServiceCreateRequest) (serv : ServiceSpec)
    (spec : swarm.ServiceSpec) (after : ServiceCreateRequest)
    (hserv : req.ServiceSpec = some serv)
    (h : Create.service (some req) = Except.ok (spec, after)) :
    (∀ k : String, k ≠ "io.amp.role" →
      Go.Map.read spec.Annotations.Labels k = Go.Map.read serv.Labels k) ∧
    (serv.Labels = none ∨ serv.Labels = some Go.Map.empty →
      spec.Annotations.Labels = some ⟨[("io.amp.role", "user")]⟩) := by
  obtain ⟨request, serv2, serviceMode, ep, hreq, hserv2, _, _, hspec, _⟩ :=
    Create.service_inv _ _ _ h
  cases hreq
  rw [hserv] at hserv2
  cases hserv2
  have hL : spec.Annotations.Labels = some (Create.labels serv.Labels) := by
    simp [hspec, Create.assembled]
  constructor
  · intro k hk
    rw [hL]
    cases hl : serv.Labels with
    | none =>
      have := Go.Map.lookup_store_other Go.Map.empty serviceRoleLabelName "user" k hk
      simpa [Go.Map.read, Create.labels, Go.Map.lookup, Go.Map.empty] using this
    | some m =>
      exact Go.Map.lookup_store_other m serviceRoleLabelName "user" k hk
  · intro hempty
    rw [hL]
    rcases hempty with hn | he
    · rw [hn]; rfl
    · rw [he]; rfl

/-- C15 at a request with labels tier=back, at the worked example (no labels) and at a
request whose labels map is present but empty. -/
theorem Create_labels_merge_frame_witness :
    (∃ (spec : swarm.ServiceSpec) (after : ServiceCreateRequest),
      Create.service (some Example.labelledRequest) = Except.ok (spec, after) ∧
      Go.Map.read spec.Annotations.Labels "tier" = some "back" ∧
      Go.Map.read spec.Annotations.Labels "other" = none) ∧
    (∃ (spec : swarm.ServiceSpec) (after : ServiceCreateRequest),
      Create.service (some Example.webRequest) = Except.ok (spec, after) ∧
      spec.Annotations.Labels = some ⟨[("io.amp.role", "user")]⟩) ∧
    (∃ (spec : swarm.ServiceSpec) (after : ServiceCreateRequest),
      Create.service (some Example.emptyLabelsRequest) = Except.ok (spec, after) ∧
      spec.Annotations.Labels = some ⟨[("io.amp.role", "user")]⟩) :=
  ⟨⟨_, _, rfl,
      (Create_labels_merge_frame Example.labelledRequest _ _ _ rfl rfl).1 "tier" (by decide),
      (Create_labels_merge_frame Example.labelledRequest _ _ _ rfl rfl).1 "other" (by decide)⟩,
    ⟨_, _, rfl,
      (Create_labels_merge_frame Example.webRequest _ _ _ rfl rfl).2 (Or.inl rfl)⟩,
    ⟨_, _, rfl,
      (Create_labels_merge_frame Example.emptyLabelsRequest _ _ _ rfl rfl).2 (Or.inr rfl)⟩⟩

end service
